import Mathlib

/-!
Verification of the RGB LED calibration tool (`rust-led-calibration`).

Shallow embedding of the four source files (`knob.rs`, `rgb.rs`, `ui.rs`,
`main.rs`).  Machine integers (`u32`, `u64`, clamped `i16` samples) are
modelled as `Nat`/`Int`: every arithmetic operation in the source stays far
below the respective word size on the domains the theorems quantify over, so
no wrap-around modelling is needed.  The quantizer's `f32` arithmetic is
modelled with exact rationals: every intermediate value is at most `~59` in
magnitude, so accumulated `f32` rounding error (three rounded operations) is
below `2e-5`, while the exact value `(18 * raw - 20000) / 10000` is never
closer than `1 / 5000 = 2e-4` to a floor/clamp decision boundary except at
inputs (multiples of `5000`) where the `f32` computation is exact; hence the
rational model agrees with the `f32` code pointwise on the clamped domain.
-/

/-- `LEVELS` from `main.rs`: number of brightness levels per color. -/
def LEVELS : Nat := 16

namespace Knob

/-- Embedding of `Knob::measure` (`knob.rs`), as a function of the raw ADC
sample (`buf[0]`, a signed sample modelled as `Int`): clamp to
`[0, 0x7fff]`, scale by `1/10000`, apply `(LEVELS+2)*scaled - 2`, clamp to
`[0, LEVELS-1]` (Rust `clamp(lo, hi)` is `min (max x lo) hi`), floor, cast
to unsigned. -/
def measure (rawSample : Int) : Nat :=
  let raw : Int := min (max rawSample 0) 0x7fff
  let scaled : ℚ := (raw : ℚ) / 10000
  let result : ℚ := min (max (((LEVELS : ℚ) + 2) * scaled - 2) 0) ((LEVELS : ℚ) - 1)
  (⌊result⌋).toNat

/-- The quantizer as the spec's sentence describes it, for the refinement
half of C3: "clamps it to `[0, 0x7fff]`, scales ... by dividing by a fixed
full-scale constant (10000), then applies
`level = floor(clamp((LEVELS+2) * scaled - 2, 0, LEVELS-1))`".  Used only to
compare against `Knob.measure`, which is translated from the source. -/
def measureSpec (rawSample : Int) : Nat :=
  let clamped : Int := max 0 (min rawSample 0x7fff)
  let scaled : ℚ := (clamped : ℚ) / 10000
  (⌊min (max (((LEVELS : ℚ) + 2) * scaled - 2) 0) ((LEVELS : ℚ) - 1)⌋).toNat

end Knob

namespace Ui

/-- Embedding of `Ui::level_to_frame_rate` (`ui.rs`). -/
def level_to_frame_rate (level : Nat) : Nat :=
  (level + 1) * 10

/-- The `[red, green, blue]` brightness triple (`[u32; 3]` in the source;
index 0 = red, 1 = green, 2 = blue). -/
structure Levels where
  red : Nat
  green : Nat
  blue : Nat
deriving DecidableEq

/-- Embedding of `UiState` (`ui.rs`): locally tracked levels and frame
rate. -/
structure UiState where
  levels : Levels
  frame_rate : Nat
deriving DecidableEq

/-- Embedding of `UiState::default` (`ui.rs`): all channels at
`LEVELS - 1`, frame rate 100. -/
def UiState.default : UiState :=
  { levels := { red := LEVELS - 1, green := LEVELS - 1, blue := LEVELS - 1 }
    frame_rate := 100 }

/-- Observable outcome of one iteration of the `Ui::run` loop body
(`ui.rs`): the new local state, the value written to the shared
`FRAME_RATE` store (if any), the triple written to the shared `RGB_LEVELS`
store (if any), and whether `show()` emitted a display update. -/
structure UiIterResult where
  state : UiState
  frameRateWrite : Option Nat
  levelsWrite : Option Levels
  displayed : Bool
deriving DecidableEq

/-- Embedding of one iteration of the `Ui::run` loop body (`ui.rs`):
inputs are the two button states, the quantized knob level, and the local
state at loop entry.  The four `match` arms mirror the source's
`(button_a_pressed, button_b_pressed)` match; the levels push mirrors
`if state_changed { if button_a_pressed || button_b_pressed { ... } }`; the
display emission mirrors `self.state.show()` inside `if state_changed`. -/
def runIter (button_a_pressed button_b_pressed : Bool) (level : Nat)
    (s : UiState) : UiIterResult :=
  let branch : UiState × Option Nat × Bool :=
    match button_a_pressed, button_b_pressed with
    | false, false =>
      let new_frame_rate := level_to_frame_rate level
      if new_frame_rate ≠ s.frame_rate then
        ({ s with frame_rate := new_frame_rate }, some new_frame_rate, true)
      else (s, none, false)
    | true, false =>
      if level ≠ s.levels.blue then
        ({ s with levels := { s.levels with blue := level } }, none, true)
      else (s, none, false)
    | false, true =>
      if level ≠ s.levels.green then
        ({ s with levels := { s.levels with green := level } }, none, true)
      else (s, none, false)
    | true, true =>
      if level ≠ s.levels.red then
        ({ s with levels := { s.levels with red := level } }, none, true)
      else (s, none, false)
  { state := branch.1
    frameRateWrite := branch.2.1
    levelsWrite :=
      if branch.2.2 && (button_a_pressed || button_b_pressed) then
        some branch.1.levels
      else none
    displayed := branch.2.2 }

/-- Embedding of the initialization prologue of `Ui::run` (`ui.rs`): one
knob measurement seeds the local frame rate; the local state's levels and
the derived frame rate are then pushed to the shared store.  Returns the
local state after initialization, the levels written to `RGB_LEVELS`, and
the frame rate written to `FRAME_RATE`. -/
def runInit (initial_level : Nat) : UiState × Levels × Nat :=
  let s : UiState :=
    { UiState.default with frame_rate := level_to_frame_rate initial_level }
  (s, s.levels, s.frame_rate)

end Ui

namespace Rgb

/-- Embedding of `Rgb::frame_tick_time` (`rgb.rs`):
`1_000_000 / (3 * frame_rate * LEVELS)` in `u64` integer division. -/
def frame_tick_time (frame_rate : Nat) : Nat :=
  1000000 / (3 * frame_rate * LEVELS)

/-- On-phase wait of one `Rgb::step` slice (`rgb.rs`): `level * tick_time`
microseconds when `level > 0`; when `level = 0` the on-phase is skipped
entirely and no wait occurs. -/
def stepOnTime (level tick_time : Nat) : Nat :=
  if level > 0 then level * tick_time else 0

/-- Off-phase wait of one `Rgb::step` slice (`rgb.rs`):
`(LEVELS - level) * tick_time` microseconds when `LEVELS - level > 0`. -/
def stepOffTime (level tick_time : Nat) : Nat :=
  let off_level := LEVELS - level
  if off_level > 0 then off_level * tick_time else 0

end Rgb

/-- Initial contents of the shared `RGB_LEVELS` static (`main.rs`:
`Mutex::new([0; 3])`). -/
def RGB_LEVELS_init : Ui.Levels := { red := 0, green := 0, blue := 0 }

/-- Initial contents of the shared `FRAME_RATE` static (`main.rs`:
`Mutex::new(100)`). -/
def FRAME_RATE_init : Nat := 100

/-- Embedding of `set_frame_rate` (`main.rs`): given the stored value and
the requested new rate, the value held by the store after the call.  The
source stores the new rate unconditionally. -/
def set_frame_rate (stored new_rate : Nat) : Nat :=
  new_rate

/-- Embedding of `set_rgb_levels` (`main.rs`) at its only call sites, which
replace the whole triple: given the stored triple and the new one, the
triple held by the store after the call. -/
def set_rgb_levels (stored new_levels : Ui.Levels) : Ui.Levels :=
  new_levels

/-- Bridge from the rational quantizer model to pure integer arithmetic:
`Knob.measure` equals a clamp of the floor division
`(18 * clamped_raw - 20000) / 10000`. -/
theorem Knob.measure_eq_int (rawSample : Int) :
    Knob.measure rawSample =
      (min (max ((18 * min (max rawSample 0) 0x7fff - 20000) / 10000) 0)
        15).toNat := by
  unfold Knob.measure
  dsimp only
  set r : Int := min (max rawSample 0) 0x7fff with hr
  have hcast : ((LEVELS : ℚ) + 2) * ((r : ℚ) / 10000) - 2
      = ((18 * r - 20000 : ℤ) : ℚ) / ((10000 : ℕ) : ℚ) := by
    simp only [LEVELS]
    push_cast
    ring
  rw [hcast]
  have hmax : ⌊max (((18 * r - 20000 : ℤ) : ℚ) / ((10000 : ℕ) : ℚ)) 0⌋
      = max ⌊(((18 * r - 20000 : ℤ) : ℚ) / ((10000 : ℕ) : ℚ))⌋ ⌊(0 : ℚ)⌋ :=
    Int.floor_mono.map_max
  have hmin : ⌊min (max (((18 * r - 20000 : ℤ) : ℚ) / ((10000 : ℕ) : ℚ)) 0)
        ((LEVELS : ℚ) - 1)⌋
      = min ⌊max (((18 * r - 20000 : ℤ) : ℚ) / ((10000 : ℕ) : ℚ)) 0⌋
          ⌊((LEVELS : ℚ) - 1)⌋ :=
    Int.floor_mono.map_min
  rw [hmin, hmax, Rat.floor_intCast_div_natCast]
  norm_num [LEVELS]

/-- Bridge for the spec-worded quantizer: same integer form, with the raw
clamp written in the spec's order. -/
theorem Knob.measureSpec_eq_int (rawSample : Int) :
    Knob.measureSpec rawSample =
      (min (max ((18 * max 0 (min rawSample 0x7fff) - 20000) / 10000) 0)
        15).toNat := by
  unfold Knob.measureSpec
  dsimp only
  set r : Int := max 0 (min rawSample 0x7fff) with hr
  have hcast : ((LEVELS : ℚ) + 2) * ((r : ℚ) / 10000) - 2
      = ((18 * r - 20000 : ℤ) : ℚ) / ((10000 : ℕ) : ℚ) := by
    simp only [LEVELS]
    push_cast
    ring
  rw [hcast]
  have hmax : ⌊max (((18 * r - 20000 : ℤ) : ℚ) / ((10000 : ℕ) : ℚ)) 0⌋
      = max ⌊(((18 * r - 20000 : ℤ) : ℚ) / ((10000 : ℕ) : ℚ))⌋ ⌊(0 : ℚ)⌋ :=
    Int.floor_mono.map_max
  have hmin : ⌊min (max (((18 * r - 20000 : ℤ) : ℚ) / ((10000 : ℕ) : ℚ)) 0)
        ((LEVELS : ℚ) - 1)⌋
      = min ⌊max (((18 * r - 20000 : ℤ) : ℚ) / ((10000 : ℕ) : ℚ)) 0⌋
          ⌊((LEVELS : ℚ) - 1)⌋ :=
    Int.floor_mono.map_min
  rw [hmin, hmax, Rat.floor_intCast_div_natCast]
  norm_num [LEVELS]

/-- C1: for every brightness level in `[0, LEVELS-1]` and every tick time,
one scheduler channel step waits on-time `= level * tick_time` (zero, with
the on-phase skipped, when `level = 0`) followed by off-time
`= (LEVELS - level) * tick_time`, and on-time + off-time equals exactly
`LEVELS * tick_time` regardless of the level. -/
theorem C1_step_constant_period (level tick_time : Nat) (h : level < LEVELS) :
    Rgb.stepOnTime level tick_time = level * tick_time ∧
    Rgb.stepOffTime level tick_time = (LEVELS - level) * tick_time ∧
    Rgb.stepOnTime level tick_time + Rgb.stepOffTime level tick_time
      = LEVELS * tick_time := by
  unfold Rgb.stepOnTime Rgb.stepOffTime
  unfold LEVELS at h ⊢
  rcases Nat.eq_zero_or_pos level with h0 | h0
  · subst h0
    simp
  · rw [if_pos h0, if_pos (by omega)]
    refine ⟨rfl, rfl, ?_⟩
    have hsum : level + (16 - level) = 16 := by omega
    calc level * tick_time + (16 - level) * tick_time
        = (level + (16 - level)) * tick_time := by rw [Nat.add_mul]
      _ = 16 * tick_time := by rw [hsum]

/-- Witness for C1 at `level = 5`, `tick_time = 100`. -/
theorem C1_step_constant_period_witness :
    5 < LEVELS ∧
      Rgb.stepOnTime 5 100 + Rgb.stepOffTime 5 100 = LEVELS * 100 :=
  ⟨by decide, (C1_step_constant_period 5 100 (by decide)).2.2⟩

/-- C2: for every raw ADC sample (including negative samples and samples
above `0x7fff`), `Knob::measure` returns a level in `[0, LEVELS-1]`. -/
theorem C2_measure_range (rawSample : Int) :
    Knob.measure rawSample ≤ LEVELS - 1 := by
  rw [Knob.measure_eq_int]
  unfold LEVELS
  omega

/-- C3: `Knob::measure` is the pure function described by the spec's
formula (clamp the raw sample to `[0, 0x7fff]`, divide by 10000, return
`floor(clamp((LEVELS+2) * scaled - 2, 0, LEVELS-1))`); in particular
`raw = 0` yields level 0 and any sample of at least 10000 (hence any
clamped raw at least 10000) yields level `LEVELS - 1 = 15`. -/
theorem C3_measure_formula :
    (∀ rawSample : Int, Knob.measure rawSample = Knob.measureSpec rawSample) ∧
    Knob.measure 0 = 0 ∧
    (∀ rawSample : Int, 10000 ≤ rawSample →
      Knob.measure rawSample = LEVELS - 1) := by
  refine ⟨fun rawSample => ?_, ?_, fun rawSample h => ?_⟩
  · rw [Knob.measure_eq_int, Knob.measureSpec_eq_int]
    have : min (max rawSample 0) 0x7fff = max 0 (min rawSample 0x7fff) := by
      omega
    rw [this]
  · rw [Knob.measure_eq_int]
    decide
  · rw [Knob.measure_eq_int]
    unfold LEVELS
    omega

/-- Witness for C3 at `rawSample = 12000`. -/
theorem C3_measure_formula_witness :
    (10000 : Int) ≤ 12000 ∧ Knob.measure 12000 = LEVELS - 1 :=
  ⟨by decide, C3_measure_formula.2.2 12000 (by decide)⟩

/-- C4: `level_to_frame_rate(level) = (level + 1) * 10`; hence
`level_to_frame_rate(0) = 10`, `level_to_frame_rate(15) = 160`, the mapping
is strictly increasing, and every frame rate produced from a level in
`[0, LEVELS-1]` lies in `[10, 160]` in steps of 10. -/
theorem C4_level_to_frame_rate_spec :
    (∀ level, Ui.level_to_frame_rate level = (level + 1) * 10) ∧
    Ui.level_to_frame_rate 0 = 10 ∧
    Ui.level_to_frame_rate 15 = 160 ∧
    (∀ l1 l2, l1 < l2 →
      Ui.level_to_frame_rate l1 < Ui.level_to_frame_rate l2) ∧
    (∀ level, level < LEVELS →
      10 ≤ Ui.level_to_frame_rate level ∧
        Ui.level_to_frame_rate level ≤ 160 ∧
        Ui.level_to_frame_rate level % 10 = 0) := by
  unfold Ui.level_to_frame_rate LEVELS
  refine ⟨fun _ => rfl, rfl, rfl, fun l1 l2 h => by omega,
    fun level h => by omega⟩

/-- Witness for C4 at `l1 = 3`, `l2 = 7`. -/
theorem C4_level_to_frame_rate_spec_witness :
    Ui.level_to_frame_rate 3 < Ui.level_to_frame_rate 7 ∧
      (10 ≤ Ui.level_to_frame_rate 7 ∧
        Ui.level_to_frame_rate 7 ≤ 160 ∧
        Ui.level_to_frame_rate 7 % 10 = 0) :=
  ⟨C4_level_to_frame_rate_spec.2.2.2.1 3 7 (by decide),
    C4_level_to_frame_rate_spec.2.2.2.2 7 (by decide)⟩

/-- C5: for every frame rate in `{10, 20, ..., 160}`, with
`tick_time_us = 1_000_000 / (3 * frame_rate * LEVELS)` computed by integer
division, `3 * LEVELS * tick_time_us` does not exceed
`1_000_000 / frame_rate` and the difference is at most
`3 * LEVELS - 1 = 47` microseconds. -/
theorem C5_tick_rounding (frame_rate : Nat) (h1 : 10 ≤ frame_rate)
    (h2 : frame_rate ≤ 160) (h3 : frame_rate % 10 = 0) :
    3 * LEVELS * Rgb.frame_tick_time frame_rate ≤ 1000000 / frame_rate ∧
    1000000 / frame_rate - 3 * LEVELS * Rgb.frame_tick_time frame_rate
      ≤ 3 * LEVELS - 1 := by
  unfold Rgb.frame_tick_time LEVELS
  have he : 3 * frame_rate * 16 = frame_rate * 48 := by ring
  rw [he, ← Nat.div_div_eq_div_mul]
  generalize (1000000 / frame_rate) = M
  omega

/-- Witness for C5 at `frame_rate = 30`. -/
theorem C5_tick_rounding_witness :
    (10 ≤ 30 ∧ 30 ≤ 160 ∧ 30 % 10 = 0) ∧
      (3 * LEVELS * Rgb.frame_tick_time 30 ≤ 1000000 / 30 ∧
        1000000 / 30 - 3 * LEVELS * Rgb.frame_tick_time 30
          ≤ 3 * LEVELS - 1) :=
  ⟨by decide, C5_tick_rounding 30 (by decide) (by decide) (by decide)⟩

/-- C10: for every frame rate producible by the UI writer (the image of
`level_to_frame_rate` on `[0, LEVELS-1]`), the tick-time divisor
`3 * frame_rate * LEVELS` is nonzero, `frame_tick_time` is at least 130
microseconds (hence strictly positive), and every on/off wait computed by
`Rgb::step` for a nonzero level or off-level is strictly positive. -/
theorem C10_tick_time_positive :
    ∀ level, level < LEVELS →
      0 < 3 * Ui.level_to_frame_rate level * LEVELS ∧
      130 ≤ Rgb.frame_tick_time (Ui.level_to_frame_rate level) ∧
      ∀ l2, l2 < LEVELS →
        (0 < l2 →
          0 < Rgb.stepOnTime l2
                (Rgb.frame_tick_time (Ui.level_to_frame_rate level))) ∧
        0 < Rgb.stepOffTime l2
              (Rgb.frame_tick_time (Ui.level_to_frame_rate level)) := by
  decide

/-- Witness for C10 at the fastest producible rate (`level = 15`,
`frame_rate = 160`) and a step at `level = 1` (on-phase) and `level = 0`
(off-phase). -/
theorem C10_tick_time_positive_witness :
    15 < LEVELS ∧
      0 < 3 * Ui.level_to_frame_rate 15 * LEVELS ∧
      130 ≤ Rgb.frame_tick_time (Ui.level_to_frame_rate 15) ∧
      0 < Rgb.stepOnTime 1 (Rgb.frame_tick_time (Ui.level_to_frame_rate 15)) ∧
      0 < Rgb.stepOffTime 0
            (Rgb.frame_tick_time (Ui.level_to_frame_rate 15)) :=
  ⟨by decide, (C10_tick_time_positive 15 (by decide)).1,
    (C10_tick_time_positive 15 (by decide)).2.1,
    ((C10_tick_time_positive 15 (by decide)).2.2 1 (by decide)).1 (by decide),
    ((C10_tick_time_positive 15 (by decide)).2.2 0 (by decide)).2⟩

/-- C6 counterexample: the shared `RGB_LEVELS` static is created holding
`[0, 0, 0]` (`Mutex::new([0; 3])` in `main.rs`), not the claimed default
`[LEVELS-1, LEVELS-1, LEVELS-1]`. -/
theorem C6_counterexample :
    RGB_LEVELS_init
      ≠ { red := LEVELS - 1, green := LEVELS - 1, blue := LEVELS - 1 } := by
  decide

/-- C6 (amended): the shared state is created once at process startup
holding `levels = [0, 0, 0]` and `frame_rate = 100`; the defaults
`[LEVELS-1, LEVELS-1, LEVELS-1]` and 100 are the UI controller's local
`UiState::default`, and the UI task pushes those default levels to the
shared store in its initialization prologue (which runs concurrently with
the scheduler, not before it). -/
theorem C6_initial_state :
    RGB_LEVELS_init = { red := 0, green := 0, blue := 0 } ∧
    FRAME_RATE_init = 100 ∧
    Ui.UiState.default.levels
      = { red := LEVELS - 1, green := LEVELS - 1, blue := LEVELS - 1 } ∧
    Ui.UiState.default.frame_rate = 100 ∧
    (∀ initial_level,
      (Ui.runInit initial_level).2.1
        = { red := LEVELS - 1, green := LEVELS - 1, blue := LEVELS - 1 }) :=
  ⟨rfl, rfl, rfl, rfl, fun _ => rfl⟩

/-- C7 counterexample: `set_frame_rate` does not reject a zero rate — with
prior stored value 100, an update to 0 leaves the store holding 0, not the
prior value. -/
theorem C7_counterexample :
    set_frame_rate 100 0 = 0 ∧ (0 : Nat) ≠ 100 := by
  decide

/-- C7 (amended): `set_frame_rate` performs no validation and stores any
requested rate, including 0, unconditionally; nevertheless the scheduler's
tick-time division never receives a non-positive rate from the store's
writers, because the store starts at 100 > 0 and every rate the UI writes
(at initialization and in the loop) is `level_to_frame_rate(level)
= (level + 1) * 10 ≥ 10 > 0`. -/
theorem C7_no_validation_but_positive_writes :
    (∀ stored new_rate, set_frame_rate stored new_rate = new_rate) ∧
    0 < FRAME_RATE_init ∧
    (∀ level, 0 < Ui.level_to_frame_rate level) ∧
    (∀ initial_level, 0 < (Ui.runInit initial_level).2.2) ∧
    (∀ a b level s r,
      (Ui.runIter a b level s).frameRateWrite = some r → 0 < r) := by
  refine ⟨fun _ _ => rfl, by decide, fun level => ?_, fun initial_level => ?_,
    fun a b level s r h => ?_⟩
  · unfold Ui.level_to_frame_rate
    omega
  · show 0 < Ui.level_to_frame_rate initial_level
    unfold Ui.level_to_frame_rate
    omega
  · cases a <;> cases b <;>
      simp only [Ui.runIter] at h <;>
      split at h <;> simp_all [Ui.level_to_frame_rate] <;> omega

/-- Witness for the amended C7 at a frame-rate-mode iteration that writes
`level_to_frame_rate 0 = 10` to the store. -/
theorem C7_no_validation_but_positive_writes_witness :
    (Ui.runIter false false 0
        { levels := { red := 15, green := 15, blue := 15 }, frame_rate := 100 }
      ).frameRateWrite = some 10 ∧ 0 < 10 :=
  ⟨by decide,
    C7_no_validation_but_positive_writes.2.2.2.2 false false 0
      { levels := { red := 15, green := 15, blue := 15 }, frame_rate := 100 }
      10 (by decide)⟩

/-- C8: in a UI loop iteration where both buttons are unpressed (frame-rate
mode) the shared levels store is never written, whatever the local state;
and any iteration that does write the levels store is one whose state
changed (so the display fired) with at least one button pressed. -/
theorem C8_levels_push_gated :
    (∀ level s, (Ui.runIter false false level s).levelsWrite = none) ∧
    (∀ a b level s, (Ui.runIter a b level s).levelsWrite ≠ none →
      (Ui.runIter a b level s).displayed = true ∧ (a = true ∨ b = true)) := by
  constructor
  · intro level s
    simp only [Ui.runIter]
    split <;> simp
  · intro a b level s h
    cases a <;> cases b <;>
      simp only [Ui.runIter] at h ⊢ <;>
      split at h <;> simp_all

/-- Witness for C8: a frame-rate-mode iteration writes no levels, and a
button-A iteration that changes blue from 15 to 5 does write the store. -/
theorem C8_levels_push_gated_witness :
    (Ui.runIter false false 3
        { levels := { red := 15, green := 15, blue := 15 }, frame_rate := 100 }
      ).levelsWrite = none ∧
    ((Ui.runIter true false 5
        { levels := { red := 15, green := 15, blue := 15 }, frame_rate := 100 }
      ).displayed = true ∧ (true = true ∨ false = true)) :=
  ⟨C8_levels_push_gated.1 3
      { levels := { red := 15, green := 15, blue := 15 }, frame_rate := 100 },
    C8_levels_push_gated.2 true false 5
      { levels := { red := 15, green := 15, blue := 15 }, frame_rate := 100 }
      (by decide)⟩

/-- C9: a display emission occurs in a UI loop iteration if and only if the
parameter selected by the button combination took a new value different
from the locally tracked one; reproducing the tracked value triggers no
emission. -/
theorem C9_display_iff_observed_change :
    ∀ a b level s,
      (Ui.runIter a b level s).displayed = true ↔
        (match a, b with
         | false, false => Ui.level_to_frame_rate level ≠ s.frame_rate
         | true, false => level ≠ s.levels.blue
         | false, true => level ≠ s.levels.green
         | true, true => level ≠ s.levels.red) := by
  intro a b level s
  cases a <;> cases b <;>
    simp only [Ui.runIter] <;>
    split <;> simp_all
